import Mathlib

/-!
Verification of the probe orchestration and reporting engine of
`luma-diagnostics` against its natural-language specification.

The Python source is shallowly embedded: each probe becomes a pure Lean
function of its inputs together with an oracle describing the outcomes of
its network operations (DNS lookups, HTTP requests).  Python dictionaries
are embedded as ordered key/value lists (`Item`), matching insertion-order
semantics; dictionary assignment becomes `setK`, lookup becomes
`lookupItem`.
-/

/-- A value stored in a probe-result dictionary: the embedding of the
Python values that the diagnostics code puts into its result dicts. -/
inductive Val where
  | s (v : String)
  | b (v : Bool)
  | n (v : Nat)
  | q (v : Rat)
  | null
  | arr (v : List Val)
  | obj (v : List (String × Val))
deriving Repr

/-- An ordered string-keyed dictionary, the embedding of a Python dict
(insertion order preserved, as in CPython). -/
abbrev Item := List (String × Val)

/-- Python `d[k] = v`: replace the value of an existing key in place,
otherwise append the new key at the end. -/
def setK : Item → String → Val → Item
  | [], k, v => [(k, v)]
  | (k', v') :: rest, k, v =>
      if k' = k then (k, v) :: rest else (k', v') :: setK rest k v

/-- Python `d.get(k)` / `d[k]`: first value bound to `k`, if any. -/
def lookupItem : Item → String → Option Val
  | [], _ => none
  | (k', v) :: rest, k => if k' = k then some v else lookupItem rest k

/-- Python `v == "str"` for a dict value: true only for an equal string. -/
def isStr (v : Val) (s : String) : Bool :=
  match v with
  | .s t => t = s
  | _ => false

/-- An HTTP response as far as the diagnostics code inspects it:
status code, body bytes, and the two headers the code reads.
(`contentLengthHeader` abstracts the already-parsed `Content-Length`.) -/
structure HttpResp where
  status_code : Nat
  content : List Nat
  contentType : Option String := none
  contentLengthHeader : Option Nat := none

namespace Tests

/-- Oracle for `tests.test_public_access`: the outcome of
`socket.gethostbyname` on the parsed hostname and of `requests.get`. -/
structure PublicAccessOracle where
  dns : Except String Unit
  get : Except String HttpResp

/-- Embedding of `tests.test_public_access` (tests.py lines 64-95). -/
def test_public_access (url : String) (o : PublicAccessOracle) : Item :=
  let results : Item :=
    [("test_name", .s "Public Access"), ("url", .s url),
     ("dns_resolved", .b false), ("reachable", .b false), ("info", .s "")]
  match o.dns with
  | .error e => setK results "info" (.s ("DNS resolution failed: " ++ e))
  | .ok _ =>
    let results := setK results "dns_resolved" (.b true)
    match o.get with
    | .ok resp =>
        if resp.status_code = 200 then setK results "reachable" (.b true)
        else setK results "info"
          (.s ("Received status " ++ toString resp.status_code ++ "."))
    | .error e => setK results "info" (.s ("HTTP GET failed: " ++ e))

end Tests

/-- The success criterion as the claim states it: DNS resolved and the GET
returned a 2xx status.  Modelled from the spec, to be compared with the
code's `reachable` flag. -/
def claimedPublicAccessSuccess (dnsOk : Bool) (status : Nat) : Bool :=
  dnsOk && (200 ≤ status && status < 300)

/-- Claim C4, counterexample:  A GET that returns status 201 (a 2xx status,
with DNS resolved) still leaves `reachable = false`: the code tests
`status_code == 200`, not membership in the 2xx class, so the claim as
stated is false at this input. -/
theorem public_access_2xx_counterexample :
    claimedPublicAccessSuccess true 201 = true ∧
    lookupItem
      (Tests.test_public_access "http://example.com/a.jpg"
        ⟨Except.ok (), Except.ok { status_code := 201, content := [] }⟩)
      "reachable" = some (Val.b false) ∧
    lookupItem
      (Tests.test_public_access "http://example.com/a.jpg"
        ⟨Except.ok (), Except.ok { status_code := 201, content := [] }⟩)
      "dns_resolved" = some (Val.b true) := by
  refine ⟨rfl, rfl, rfl⟩

/-- Claim C4, amended:  The Public Access probe succeeds exactly when DNS
resolves and the GET returns status exactly 200 (not any 2xx).  When DNS
resolution fails it stops early: `dns_resolved` stays `false`, the
resolution error is recorded, and the result does not depend on the GET
oracle at all.  A non-200 status or a connection error is recorded in
`info` with `reachable = false`. -/
theorem public_access_amended (url : String) (o : Tests.PublicAccessOracle) :
    (∀ e, o.dns = Except.error e →
      lookupItem (Tests.test_public_access url o) "dns_resolved"
        = some (Val.b false) ∧
      lookupItem (Tests.test_public_access url o) "info"
        = some (Val.s ("DNS resolution failed: " ++ e)) ∧
      ∀ g, Tests.test_public_access url o
        = Tests.test_public_access url ⟨o.dns, g⟩) ∧
    (lookupItem (Tests.test_public_access url o) "reachable"
        = some (Val.b true) ↔
      o.dns = Except.ok () ∧
        ∃ resp, o.get = Except.ok resp ∧ resp.status_code = 200) ∧
    (∀ resp, o.dns = Except.ok () → o.get = Except.ok resp →
      resp.status_code ≠ 200 →
      lookupItem (Tests.test_public_access url o) "info"
        = some (Val.s ("Received status " ++ toString resp.status_code ++ "."))) ∧
    (∀ e, o.dns = Except.ok () → o.get = Except.error e →
      lookupItem (Tests.test_public_access url o) "info"
        = some (Val.s ("HTTP GET failed: " ++ e))) := by
  obtain ⟨dns, get⟩ := o
  refine ⟨?_, ?_, ?_, ?_⟩
  · rintro e rfl
    exact ⟨rfl, rfl, fun g => rfl⟩
  · cases dns with
    | error e =>
        have hx : lookupItem
            (Tests.test_public_access url ⟨Except.error e, get⟩) "reachable"
            = some (Val.b false) := rfl
        rw [hx]
        constructor
        · intro h; simp at h
        · rintro ⟨h, -⟩; exact Except.noConfusion h
    | ok u =>
        cases u
        cases get with
        | error e =>
            have hx : lookupItem
                (Tests.test_public_access url ⟨Except.ok (), Except.error e⟩)
                "reachable" = some (Val.b false) := rfl
            rw [hx]
            constructor
            · intro h; simp at h
            · rintro ⟨-, resp, h, -⟩; exact Except.noConfusion h
        | ok resp =>
            by_cases h200 : resp.status_code = 200
            · have hx : lookupItem
                  (Tests.test_public_access url ⟨Except.ok (), Except.ok resp⟩)
                  "reachable" = some (Val.b true) := by
                simp only [Tests.test_public_access]
                rw [if_pos h200]
                rfl
              rw [hx]
              constructor
              · intro _; exact ⟨rfl, resp, rfl, h200⟩
              · intro _; rfl
            · have hx : lookupItem
                  (Tests.test_public_access url ⟨Except.ok (), Except.ok resp⟩)
                  "reachable" = some (Val.b false) := by
                simp only [Tests.test_public_access]
                rw [if_neg h200]
                rfl
              rw [hx]
              constructor
              · intro h; simp at h
              · rintro ⟨-, resp', h, h'⟩
                rw [Except.ok.injEq] at h
                subst h
                exact absurd h' h200
  · rintro resp rfl h h200
    subst h
    simp only [Tests.test_public_access]
    rw [if_neg h200]
    rfl
  · rintro e rfl h
    subst h
    rfl

/-- Claim C4, witness for `public_access_amended` at a concrete input:
DNS fails, so the result is independent of the GET oracle and records
the resolution failure with `dns_resolved = false`. -/
theorem public_access_amended_witness :
    lookupItem
      (Tests.test_public_access "http://h/x.jpg"
        ⟨Except.error "boom", Except.ok { status_code := 200, content := [] }⟩)
      "dns_resolved" = some (Val.b false) := by
  exact (((public_access_amended "http://h/x.jpg"
    ⟨Except.error "boom", Except.ok { status_code := 200, content := [] }⟩).1)
    "boom" rfl).1

/-- The byte-level JPEG signature test performed by
`tests.test_image_validity` (tests.py line 190): length above four, SOI
marker `FF D8` at the start and EOI marker `FF D9` at the end.
Negative Python indices become offsets from the length. -/
def jpegSigT (data : List Nat) : Bool :=
  decide (4 < data.length) && data.getD 0 0 == 0xFF && data.getD 1 0 == 0xD8
    && data.getD (data.length - 2) 0 == 0xFF
    && data.getD (data.length - 1) 0 == 0xD9

namespace Tests

/-- Embedding of `tests.test_image_validity` (tests.py lines 176-196);
the oracle is the outcome of `requests.get`. -/
def test_image_validity (url : String) (o : Except String HttpResp) : Item :=
  let results : Item :=
    [("test_name", .s "Image Validity"), ("url", .s url),
     ("is_jpeg_signature", .b false), ("info", .s "")]
  match o with
  | .ok resp =>
      if jpegSigT resp.content then setK results "is_jpeg_signature" (.b true)
      else setK results "info"
        (.s "Does not match JPEG signature. Possibly another format or corrupted.")
  | .error e =>
      setK results "info" (.s ("Could not retrieve or parse image: " ++ e))

end Tests

namespace Diag

/-- Outcome of `requests.get`/`requests.head` in diagnostics.py: a timeout,
another request exception, or a response (to which `raise_for_status` is
then applied by the code itself). -/
inductive FetchOutcome where
  | timeout
  | reqError (msg : String)
  | ok (resp : HttpResp)

/-- The text of the `HTTPError` that `raise_for_status` raises for a 4xx/5xx
status.  The exact wording comes from the external `requests` library and is
abstracted here as a function of the status and URL. -/
def httpErrorMsg (status : Nat) (url : String) : String :=
  toString status ++ " Error for url: " ++ url

/-- The signature test of `diagnostics.test_image_validity` (diagnostics.py
line 59): `content.startswith(b"\xff\xd8\xff")` — only the three-byte SOI
prefix, no EOI check. -/
def soiMagic (data : List Nat) : Bool :=
  match data with
  | a :: b :: c :: _ => a == 0xFF && b == 0xD8 && c == 0xFF
  | _ => false

/-- Embedding of `diagnostics.test_image_validity` (diagnostics.py lines
52-87).  `raise_for_status` raises exactly for client/server error
statuses 400-599, landing in the `RequestException` handler. -/
def test_image_validity (url : String) (timeoutS : Nat) (o : FetchOutcome) :
    Item :=
  match o with
  | .timeout =>
      [("test_name", .s "Image Validity"), ("status", .s "failed"),
       ("details", .obj
         [("error", .s ("Request timed out after " ++ toString timeoutS
             ++ " seconds")),
          ("url", .s url)])]
  | .reqError e =>
      [("test_name", .s "Image Validity"), ("status", .s "failed"),
       ("details", .obj [("error", .s e), ("url", .s url)])]
  | .ok resp =>
      if 400 ≤ resp.status_code ∧ resp.status_code < 600 then
        [("test_name", .s "Image Validity"), ("status", .s "failed"),
         ("details", .obj
           [("error", .s (httpErrorMsg resp.status_code url)),
            ("url", .s url)])]
      else
        [("test_name", .s "Image Validity"), ("status", .s "completed"),
         ("details", .obj
           [("url", .s url),
            ("is_jpeg_signature", .b (soiMagic resp.content)),
            ("info", .s "")])]

/-- Embedding of `diagnostics.test_image_headers` (diagnostics.py lines
16-50): a HEAD request followed by `raise_for_status`, which raises
exactly for statuses 400-599.  `contentLengthHeader` is the
already-parsed `Content-Length` header (`int(...)` of the header string,
0 when absent). -/
def test_image_headers (url : String) (timeoutS : Nat) (o : FetchOutcome) :
    Item :=
  match o with
  | .timeout =>
      [("test_name", .s "Headers and Content"), ("status", .s "failed"),
       ("details", .obj
         [("error", .s ("Request timed out after " ++ toString timeoutS
             ++ " seconds")),
          ("url", .s url)])]
  | .reqError e =>
      [("test_name", .s "Headers and Content"), ("status", .s "failed"),
       ("details", .obj [("error", .s e), ("url", .s url)])]
  | .ok resp =>
      if 400 ≤ resp.status_code ∧ resp.status_code < 600 then
        [("test_name", .s "Headers and Content"), ("status", .s "failed"),
         ("details", .obj
           [("error", .s (httpErrorMsg resp.status_code url)),
            ("url", .s url)])]
      else
        [("test_name", .s "Headers and Content"), ("status", .s "completed"),
         ("details", .obj
           [("url", .s url),
            ("content_type", .s (resp.contentType.getD "unknown")),
            ("content_length_header", .n (resp.contentLengthHeader.getD 0)),
            ("content_length_actual", .n resp.content.length),
            ("info", .s "")])]

end Diag

/-- The signature criterion as the claim states it: SOI marker at the start
and EOI marker at the end.  Modelled from the spec, to be compared with
what the code computes. -/
def soiEoiSignature (data : List Nat) : Bool :=
  data.getD 0 0 == 0xFF && data.getD 1 0 == 0xD8
    && data.getD (data.length - 2) 0 == 0xFF
    && data.getD (data.length - 1) 0 == 0xD9

/-- Claim C5, counterexample:  A body with a valid SOI prefix but no EOI
marker fails the claimed SOI-and-EOI signature check, yet
`diagnostics.test_image_validity` (the implementation the wizard runs)
reports `is_jpeg_signature = true`: that implementation checks only the
three-byte SOI prefix, so the claim as stated is false at this input. -/
theorem image_validity_eoi_counterexample :
    soiEoiSignature [0xFF, 0xD8, 0xFF, 0x00, 0x00, 0x00] = false ∧
    Diag.test_image_validity "http://h/t.bin" 30
        (Diag.FetchOutcome.ok
          { status_code := 200, content := [0xFF, 0xD8, 0xFF, 0x00, 0x00, 0x00] })
      = [("test_name", Val.s "Image Validity"), ("status", Val.s "completed"),
         ("details", Val.obj
           [("url", Val.s "http://h/t.bin"),
            ("is_jpeg_signature", Val.b true),
            ("info", Val.s "")])] := by
  exact ⟨rfl, rfl⟩

/-- Claim C5, amended:  `tests.test_image_validity` checks both the SOI and
EOI markers (requiring more than four bytes); the wizard-path
`diagnostics.test_image_validity` checks only the three-byte SOI prefix
`FF D8 FF`.  In both, a signature mismatch is a successful completion
recording a false validity flag, never a probe failure; only a failing
fetch produces a failure (an `info` fetch-error message in the tests.py
version; `status = "failed"` in the diagnostics.py version for a timeout,
a request exception, or a 400-599 status that `raise_for_status` turns
into one — any other status completes with the signature checked). -/
theorem image_validity_amended (url : String) (t : Nat) (resp : HttpResp)
    (e : String) :
    (lookupItem (Tests.test_image_validity url (Except.ok resp))
        "is_jpeg_signature" = some (Val.b (jpegSigT resp.content)) ∧
      lookupItem (Tests.test_image_validity url (Except.ok resp)) "error"
        = none ∧
      (jpegSigT resp.content = false →
        lookupItem (Tests.test_image_validity url (Except.ok resp)) "info"
          = some (Val.s
            "Does not match JPEG signature. Possibly another format or corrupted."))) ∧
    (lookupItem (Tests.test_image_validity url (Except.error e)) "info"
        = some (Val.s ("Could not retrieve or parse image: " ++ e))) ∧
    (resp.status_code < 400 ∨ 600 ≤ resp.status_code →
      Diag.test_image_validity url t (Diag.FetchOutcome.ok resp)
        = [("test_name", Val.s "Image Validity"),
           ("status", Val.s "completed"),
           ("details", Val.obj
             [("url", Val.s url),
              ("is_jpeg_signature", Val.b (Diag.soiMagic resp.content)),
              ("info", Val.s "")])]) ∧
    (lookupItem (Diag.test_image_validity url t Diag.FetchOutcome.timeout)
        "status" = some (Val.s "failed")) ∧
    (lookupItem
        (Diag.test_image_validity url t (Diag.FetchOutcome.reqError e))
        "status" = some (Val.s "failed")) ∧
    (400 ≤ resp.status_code → resp.status_code < 600 →
      lookupItem (Diag.test_image_validity url t (Diag.FetchOutcome.ok resp))
        "status" = some (Val.s "failed")) := by
  refine ⟨⟨?_, ?_, ?_⟩, rfl, ?_, rfl, rfl, ?_⟩
  · cases hsig : jpegSigT resp.content
    all_goals
      simp only [Tests.test_image_validity]
      rw [hsig]
      rfl
  · cases hsig : jpegSigT resp.content
    all_goals
      simp only [Tests.test_image_validity]
      rw [hsig]
      rfl
  · intro hsig
    simp only [Tests.test_image_validity]
    rw [hsig]
    rfl
  · intro hout
    simp only [Diag.test_image_validity]
    rw [if_neg (by omega :
      ¬ (400 ≤ resp.status_code ∧ resp.status_code < 600))]
  · intro hge hlt
    simp only [Diag.test_image_validity]
    rw [if_pos ⟨hge, hlt⟩]
    rfl

/-- Claim C5, witness for `image_validity_amended` at a concrete input: a
GET answered with status 404 makes the diagnostics.py probe fail. -/
theorem image_validity_amended_witness :
    lookupItem
      (Diag.test_image_validity "u" 30
        (Diag.FetchOutcome.ok { status_code := 404, content := [] }))
      "status" = some (Val.s "failed") := by
  exact (image_validity_amended "u" 30
    { status_code := 404, content := [] } "x").2.2.2.2.2
    (by norm_num) (by norm_num)

/-- Python `round(x, 3)` over exact rationals: round half to even at the
third decimal place. -/
def roundHalfEven (q : Rat) : Int :=
  let f := ⌊q⌋
  let frac := q - (f : Rat)
  if frac < 1/2 then f
  else if 1/2 < frac then f + 1
  else if f % 2 = 0 then f else f + 1

/-- `round(end - start, 3)` as the latency probe computes it. -/
def pyRound3 (q : Rat) : Rat := (roundHalfEven (q * 1000) : Rat) / 1000

namespace Tests

/-- Oracle for `tests.test_latency_timeout`: the elapsed wall-clock time
of the GET (`end - start`) and whether the GET succeeded or raised. -/
structure LatencyOracle where
  elapsed : Rat
  outcome : Except String Unit

/-- Embedding of `tests.test_latency_timeout` (tests.py lines 312-334). -/
def test_latency_timeout (url : String) (o : LatencyOracle) : Item :=
  let results : Item :=
    [("test_name", .s "Latency & Timeout"), ("url", .s url),
     ("latency_seconds", Val.null), ("info", .s "")]
  match o.outcome with
  | .ok _ => setK results "latency_seconds" (.q (pyRound3 o.elapsed))
  | .error e =>
      setK (setK results "latency_seconds" (.q (pyRound3 o.elapsed)))
        "info" (.s ("Request possibly timed out or had an error: " ++ e))

end Tests

/-- Claim C10:  The Latency & Timeout probe records `latency_seconds` as the
elapsed time rounded to three decimals in both the success branch and the
exception branch — the measurement is never absent — and an error only
adds an `info` message alongside it. -/
theorem latency_always_recorded (url : String) (o : Tests.LatencyOracle) :
    lookupItem (Tests.test_latency_timeout url o) "latency_seconds"
      = some (Val.q (pyRound3 o.elapsed)) ∧
    lookupItem (Tests.test_latency_timeout url o) "info"
      = some (Val.s (match o.outcome with
          | .ok _ => ""
          | .error e => "Request possibly timed out or had an error: " ++ e)) := by
  obtain ⟨el, outc⟩ := o
  cases outc <;> exact ⟨rfl, rfl⟩

/-- Python truthiness of an optional string credential: `not bearer_token`
is true exactly for `None` and the empty string. -/
def pyFalsyStr : Option String → Bool
  | none => true
  | some s => s = ""

namespace Tests

/-- Embedding of `tests.test_api_auth` (tests.py lines 616-650); the oracle
is the outcome of the authenticated GET (status code, or exception). -/
def test_api_auth (api_url : String) (bearer_token : Option String)
    (o : Except String Nat) : Item :=
  if pyFalsyStr bearer_token then
    [("test_name", .s "API Authentication"), ("url", .s api_url),
     ("info", .s "No bearer token provided")]
  else
    match o with
    | .ok status =>
        [("test_name", .s "API Authentication"), ("url", .s api_url),
         ("status_code", .n status),
         ("authenticated", .b (status != 401)),
         ("info", .s ("Authentication "
             ++ (if status != 401 then "successful" else "failed")))]
    | .error e =>
        [("test_name", .s "API Authentication"), ("url", .s api_url),
         ("error", .s e), ("info", .s "Failed to verify authentication")]

end Tests

/-- Modelled from the spec: the spec status of an API Authentication
result.  A result carrying an `error` is `Failed`; one carrying a
`status_code` is `Completed`; the bare informational result produced when
no credential is present is `Skipped`. -/
def apiAuthSpecStatus (it : Item) : String :=
  if (lookupItem it "error").isSome then "Failed"
  else if (lookupItem it "status_code").isSome then "Completed"
  else "Skipped"

/-- Claim C3:  Invoking the API Authentication probe without the required
credential (`None` or an empty token — Python falsiness) yields the
no-token result, which classifies as `Skipped` and carries no `error`,
never `Failed`; this holds for every outcome the GET oracle could have
had. -/
theorem api_auth_missing_credential_skipped (api_url : String)
    (o : Except String Nat) :
    apiAuthSpecStatus (Tests.test_api_auth api_url none o) = "Skipped" ∧
    apiAuthSpecStatus (Tests.test_api_auth api_url (some "") o) = "Skipped" ∧
    lookupItem (Tests.test_api_auth api_url none o) "error" = none ∧
    lookupItem (Tests.test_api_auth api_url (some "") o) "error" = none ∧
    Tests.test_api_auth api_url none o
      = [("test_name", Val.s "API Authentication"), ("url", Val.s api_url),
         ("info", Val.s "No bearer token provided")] := by
  exact ⟨rfl, rfl, rfl, rfl, rfl⟩

/-- The image properties PIL's `Image.open` reports: format, mode and
pixel size. -/
structure ImgMeta where
  format : String
  mode : String
  width : Nat
  height : Nat

namespace Tests

/-- Embedding of `tests.test_image_metadata` (tests.py lines 554-584).
`get` is the outcome of `requests.get` (exception, or a status code);
`opened` is the outcome of `PIL.Image.open` on the body (decode error, or
the image properties).  When the GET completes with a status other than
200 the Python function falls off the end of its `try` block and returns
`None` — hence the `Option` result. -/
def test_image_metadata (url : String) (get : Except String Nat)
    (opened : Except String ImgMeta) : Option Item :=
  match get with
  | .error e =>
      some [("test_name", .s "Image Metadata"), ("url", .s url),
            ("error", .s e), ("info", .s "Failed to analyze image metadata")]
  | .ok status =>
      if status = 200 then
        match opened with
        | .ok m =>
            some [("test_name", .s "Image Metadata"), ("url", .s url),
              ("format", .s m.format), ("mode", .s m.mode),
              ("size", .arr [.n m.width, .n m.height]),
              ("info", .s ("Image is " ++ m.format ++ ", mode " ++ m.mode
                ++ ", size (" ++ toString m.width ++ ", "
                ++ toString m.height ++ ")"))]
        | .error e =>
            some [("test_name", .s "Image Metadata"), ("url", .s url),
              ("error", .s e),
              ("info", .s "Failed to analyze image metadata")]
      else none

end Tests

/-- Claim C2, bug evaluation:  The Image Metadata probe returns no Probe
Result at all — Python `None` — when the GET completes with a non-200
status (here 404): the `if response.status_code == 200` block has no else
branch.  Exceptions, by contrast, are converted into an error-carrying
result as the claim describes. -/
theorem image_metadata_none_on_non_200 :
    Tests.test_image_metadata "http://h/a.jpg" (Except.ok 404)
      (Except.ok { format := "JPEG", mode := "RGB", width := 1, height := 1 })
      = none ∧
    Tests.test_image_metadata "http://h/a.jpg" (Except.error "DNS failure")
      (Except.ok { format := "JPEG", mode := "RGB", width := 1, height := 1 })
      = some [("test_name", Val.s "Image Metadata"),
              ("url", Val.s "http://h/a.jpg"),
              ("error", Val.s "DNS failure"),
              ("info", Val.s "Failed to analyze image metadata")] := by
  exact ⟨rfl, rfl⟩

namespace Tests

/-- Outcome of one POST attempt in the rate-limit loop: an exception, or a
response with its status and parsed body (`resp.json()` falling back to
`resp.text` is abstracted as the resulting body value). -/
inductive RateOutcome where
  | exn (msg : String)
  | ok (status : Nat) (body : Val)

/-- One `attempt_info` dict of `tests.test_rate_limit` (tests.py lines
275-287): `attempt` is `i+1`; on an exception `status_code` stays `None`
and the error text is captured in `body`. -/
def rateAttempt (i : Nat) (o : RateOutcome) : Item :=
  match o with
  | .ok status body =>
      [("attempt", .n (i + 1)), ("status_code", .n status), ("body", body)]
  | .exn e =>
      [("attempt", .n (i + 1)), ("status_code", Val.null),
       ("body", .s ("Connection/Request Error: " ++ e))]

/-- Embedding of `tests.test_rate_limit` (tests.py lines 248-288): the
aggregate dict after the attempt loop has run; `o i` is the outcome of
attempt `i`. -/
def test_rate_limit (api_url bearer_token image_url : String)
    (attempts : Nat) (o : Nat → RateOutcome) : Item :=
  [("test_name", .s "Rate Limit Test"), ("endpoint", .s api_url),
   ("num_attempts", .n attempts),
   ("responses", .arr ((List.range attempts).map
      (fun i => Val.obj (rateAttempt i (o i))))),
   ("info", .s "")]

end Tests

/-- Claim C6:  For every `attempts = N` and every pattern of attempt
outcomes, the Rate Limit probe returns a `responses` list with exactly `N`
entries, the `i`-th entry recording attempt `i`'s own outcome (an
exception is captured inside that entry), and the aggregate result itself
never carries an `error`. -/
theorem rate_limit_aggregates_all_attempts (api_url tok img : String)
    (attempts : Nat) (o : Nat → Tests.RateOutcome) :
    (∃ l, lookupItem (Tests.test_rate_limit api_url tok img attempts o)
          "responses" = some (Val.arr l) ∧
        l.length = attempts ∧
        ∀ i, i < attempts →
          l[i]? = some (Val.obj (Tests.rateAttempt i (o i)))) ∧
    lookupItem (Tests.test_rate_limit api_url tok img attempts o) "error"
      = none ∧
    lookupItem (Tests.test_rate_limit api_url tok img attempts o)
      "num_attempts" = some (Val.n attempts) := by
  refine ⟨⟨(List.range attempts).map
      (fun i => Val.obj (Tests.rateAttempt i (o i))), rfl, by simp, ?_⟩,
    rfl, rfl⟩
  intro i hi
  simp [List.getElem?_map, List.getElem?_range hi]

/-- Claim C6, witness for `rate_limit_aggregates_all_attempts`: a run of two
attempts that both raise still produces an error-free aggregate result. -/
theorem rate_limit_witness_two_attempts :
    lookupItem
      (Tests.test_rate_limit "a" "t" "i" 2
        (fun _ => Tests.RateOutcome.exn "x")) "error" = none := by
  exact (rate_limit_aggregates_all_attempts "a" "t" "i" 2
    (fun _ => Tests.RateOutcome.exn "x")).2.1

namespace Tests

/-- Outcome of the verified GET in `tests.test_cert_validation`: an SSL
error (caught separately), any other exception, or a response. -/
inductive CertOutcome where
  | ssl (msg : String)
  | other (msg : String)
  | ok (status : Nat)

/-- Embedding of `tests.test_cert_validation` (tests.py lines 98-123). -/
def test_cert_validation (url : String) (o : CertOutcome) : Item :=
  let results : Item :=
    [("test_name", .s "Cert Validation"), ("url", .s url),
     ("cert_valid", .b false), ("info", .s "")]
  match o with
  | .ok status =>
      setK (setK results "cert_valid" (.b true)) "info"
        (.s ("Success. Status code: " ++ toString status))
  | .ssl m => setK results "info" (.s ("SSL Error: " ++ m))
  | .other m => setK results "info" (.s ("Connection Error: " ++ m))

/-- Outcome of the redirect-following GET in `tests.test_redirect`: an
exception, or the final URL with the chain of intermediate status codes. -/
inductive RedirectOutcome where
  | err (msg : String)
  | ok (finalUrl : String) (history : List Nat)

/-- Python `str` of a list of ints, as interpolated into the redirect-chain
message. -/
def pyIntListRepr (l : List Nat) : String :=
  "[" ++ String.intercalate ", " (l.map toString) ++ "]"

/-- Embedding of `tests.test_redirect` (tests.py lines 126-149). -/
def test_redirect (url : String) (o : RedirectOutcome) : Item :=
  let results : Item :=
    [("test_name", .s "Redirect Check"), ("url", .s url),
     ("is_redirecting", .b false), ("final_url", Val.null), ("info", .s "")]
  match o with
  | .err m => setK results "info" (.s ("Redirect test error: " ++ m))
  | .ok fu hist =>
      let results := setK results "final_url" (.s fu)
      if 0 < hist.length then
        setK (setK results "is_redirecting" (.b true)) "info"
          (.s ("Redirect chain: " ++ pyIntListRepr hist))
      else results

end Tests

/-- Whether the character list `p` is an initial segment of `s`. -/
def startsWithChars : List Char → List Char → Bool
  | _, [] => true
  | [], _ :: _ => false
  | a :: s, b :: p => a == b && startsWithChars s p

/-- Whether the character list `p` occurs inside `s`. -/
def containsChars : List Char → List Char → Bool
  | [], p => startsWithChars [] p
  | s@(_ :: rest), p => startsWithChars s p || containsChars rest p

/-- Whether `pat` occurs in `s` (Python `pat in s`). -/
def strContains (s pat : String) : Bool := containsChars s.toList pat.toList

/-- Python `str.lower()`. -/
def pyLower (s : String) : String := String.mk (s.toList.map Char.toLower)

mutual

/-- Python `repr()` of an embedded value (strings quoted, containers
element-wise); the diagnostics renderer only ever interpolates values, so
this fixes the deterministic text it produces. -/
def pyReprOfVal : Val → String
  | .s v => "\x27" ++ v ++ "\x27"
  | .b true => "True"
  | .b false => "False"
  | .n v => toString v
  | .q v => toString v
  | .null => "None"
  | .arr l => "[" ++ pyReprOfList l ++ "]"
  | .obj l => "\x7b" ++ pyReprOfObj l ++ "\x7d"

def pyReprOfList : List Val → String
  | [] => ""
  | [v] => pyReprOfVal v
  | v :: rest => pyReprOfVal v ++ ", " ++ pyReprOfList rest

def pyReprOfObj : List (String × Val) → String
  | [] => ""
  | [(k, v)] => "\x27" ++ k ++ "\x27: " ++ pyReprOfVal v
  | (k, v) :: rest =>
      "\x27" ++ k ++ "\x27: " ++ pyReprOfVal v ++ ", " ++ pyReprOfObj rest

end

/-- Python `str()` of an embedded value: the string itself for strings,
`repr` otherwise. -/
def pyStrOfVal : Val → String
  | .s v => v
  | v => pyReprOfVal v

namespace Wizard

/-- The synthesized result appended by the wizard loop's catch-all handler
(wizard.py lines 392-399); `msg` is `str(e)` — for a `KeyError`, Python
renders the missing key in quotes. -/
def exnEntry (name msg : String) : Item :=
  [("test_name", .s name), ("status", .s "failed"),
   ("details", .obj [("error", .s msg)])]

/-- The wizard's retry trigger (wizard.py line 363): `"timeout"` occurs in
the lowercased text of `details.get("error", "")`. -/
def timeoutIn (details : Val) : Bool :=
  match details with
  | .obj d =>
      match lookupItem d "error" with
      | some v => strContains (pyLower (pyStrOfVal v)) "timeout"
      | none => false
  | _ => false

/-- One iteration of the wizard's per-test loop (wizard.py lines 349-406)
as a function of the probe's result `r`, the user's retry confirmation and
the result `retryRes` that re-invoking the probe would produce.  The bare
subscripts `result["status"]` and `result["details"]` raise `KeyError`
when the key is absent; the catch-all then appends a synthesized failed
entry on top of the already-appended real result. -/
def wizardStep (name : String) (r : Item) (decision : Bool) (retryRes : Item)
    (results : List Item) : List Item :=
  let results := results ++ [r]
  match lookupItem r "status" with
  | none => results ++ [exnEntry name "\x27status\x27"]
  | some st =>
      if isStr st "failed" then
        match lookupItem r "details" with
        | none => results ++ [exnEntry name "\x27details\x27"]
        | some d =>
            if timeoutIn d && decision
                && (name == "Headers and Content"
                    || name == "Image Validity") then
              let results := results.dropLast ++ [retryRes]
              match lookupItem retryRes "status" with
              | none => results ++ [exnEntry name "\x27status\x27"]
              | some st2 =>
                  if isStr st2 "completed" then results
                  else
                    match lookupItem retryRes "details" with
                    | none => results ++ [exnEntry name "\x27details\x27"]
                    | some _ => results
            else results
      else results

/-- The wizard's test sequence (wizard.py lines 338-344): the five planned
probes, by display name. -/
def wizardPlan : List String :=
  ["Public Access", "Certificate Validation", "Redirect Check",
   "Headers and Content", "Image Validity"]

/-- Oracles for one wizard run: each probe's network outcomes, the user's
retry confirmations, and the outcomes a retried probe would see. -/
structure WizardOracle where
  pa : Tests.PublicAccessOracle
  cv : Tests.CertOutcome
  rc : Tests.RedirectOutcome
  hc : Diag.FetchOutcome
  iv : Diag.FetchOutcome
  confirmRetry : String → Bool
  hcRetry : Diag.FetchOutcome
  ivRetry : Diag.FetchOutcome

/-- Embedding of the result aggregation of `wizard.run_tests` (wizard.py
lines 338-406): the `results` list after the five-probe loop.  The first
three probes come from tests.py and return dicts without a `"status"`
key. -/
def run_tests (image_url : String) (o : WizardOracle) : List Item :=
  let r1 := Tests.test_public_access image_url o.pa
  let r2 := Tests.test_cert_validation image_url o.cv
  let r3 := Tests.test_redirect image_url o.rc
  let r4 := Diag.test_image_headers image_url 30 o.hc
  let r5 := Diag.test_image_validity image_url 30 o.iv
  let s := wizardStep "Public Access" r1 (o.confirmRetry "Public Access") r1 []
  let s := wizardStep "Certificate Validation" r2
    (o.confirmRetry "Certificate Validation") r2 s
  let s := wizardStep "Redirect Check" r3 (o.confirmRetry "Redirect Check") r3 s
  let s := wizardStep "Headers and Content" r4
    (o.confirmRetry "Headers and Content")
    (Diag.test_image_headers image_url 30 o.hcRetry) s
  wizardStep "Image Validity" r5 (o.confirmRetry "Image Validity")
    (Diag.test_image_validity image_url 30 o.ivRetry) s

/-- A fully successful wizard run: every probe's network operations
succeed and no retry is ever confirmed. -/
def demoOracle : WizardOracle where
  pa := ⟨Except.ok (),
    Except.ok { status_code := 200, content := [0xFF, 0xD8, 0xFF, 0xD9] }⟩
  cv := Tests.CertOutcome.ok 200
  rc := Tests.RedirectOutcome.ok "http://h/a.jpg" []
  hc := Diag.FetchOutcome.ok
    { status_code := 200, content := [1, 2, 3],
      contentType := some "image/jpeg", contentLengthHeader := some 3 }
  iv := Diag.FetchOutcome.ok
    { status_code := 200, content := [0xFF, 0xD8, 0xFF, 0xD9, 0xFF] }
  confirmRetry := fun _ => false
  hcRetry := Diag.FetchOutcome.timeout
  ivRetry := Diag.FetchOutcome.timeout

/-- How many entries of a result list carry the given `test_name`. -/
def countNamed (rs : List Item) (name : String) : Nat :=
  (rs.filter (fun it =>
    match lookupItem it "test_name" with
    | some v => isStr v name
    | none => false)).length

end Wizard

/-- Claim C1, bug evaluation:  In a wizard run in which every probe
succeeds, the report contains 8 entries for the 5-probe plan: each of the
three tests.py probes contributes its real result plus a synthesized
failed entry, because `result["status"]` raises `KeyError` on their
status-less dicts and the catch-all appends a second entry.  The claimed
one-entry-per-probe invariant fails. -/
theorem wizard_duplicates_probe_results :
    (Wizard.run_tests "http://h/a.jpg" Wizard.demoOracle).length = 8 ∧
    Wizard.wizardPlan.length = 5 ∧
    Wizard.countNamed (Wizard.run_tests "http://h/a.jpg" Wizard.demoOracle)
      "Public Access" = 2 := by
  exact ⟨rfl, rfl, rfl⟩

/-- Claim C7:  When the wizard's retry fires for a failed probe — timeout
error text, eligible probe name, user confirmed — the retried probe's
entry, which sits at index `prior.length` (its original position, the last
element at that moment), is replaced by the new Probe Result; every other
element of the sequence is identical before and after the retry, and the
replacement is unconditional, so on a repeated failure the new failure is
what is surfaced at that position. -/
theorem wizard_retry_replaces_one_element (prior : List Item) (name : String)
    (r retryRes : Item) (st st2 d d2 : Val)
    (h1 : lookupItem r "status" = some st)
    (h2 : isStr st "failed" = true)
    (h3 : lookupItem r "details" = some d)
    (h4 : Wizard.timeoutIn d = true)
    (h5 : name = "Headers and Content" ∨ name = "Image Validity")
    (h6 : lookupItem retryRes "status" = some st2)
    (h7 : lookupItem retryRes "details" = some d2) :
    Wizard.wizardStep name r false retryRes prior = prior ++ [r] ∧
    Wizard.wizardStep name r true retryRes prior = prior ++ [retryRes] ∧
    (Wizard.wizardStep name r true retryRes prior).length
      = (Wizard.wizardStep name r false retryRes prior).length ∧
    (Wizard.wizardStep name r true retryRes prior)[prior.length]?
      = some retryRes ∧
    ∀ i, i < prior.length →
      (Wizard.wizardStep name r true retryRes prior)[i]?
        = (Wizard.wizardStep name r false retryRes prior)[i]? := by
  have hname : (name == "Headers and Content"
      || name == "Image Validity") = true := by
    rcases h5 with h | h <;> subst h <;> rfl
  have hF : Wizard.wizardStep name r false retryRes prior = prior ++ [r] := by
    simp [Wizard.wizardStep, h1, h2, h3, h4, hname]
  have hT : Wizard.wizardStep name r true retryRes prior
      = prior ++ [retryRes] := by
    cases hc2 : isStr st2 "completed" <;>
      simp [Wizard.wizardStep, h1, h2, h3, h4, hname, h6, h7, hc2,
        List.dropLast_concat]
  refine ⟨hF, hT, ?_, ?_, ?_⟩
  · rw [hF, hT]; simp
  · rw [hT]
    simp
  · intro i hi
    rw [hF, hT]
    rw [List.getElem?_append, List.getElem?_append, if_pos hi, if_pos hi]

/-- Claim C7, witness for `wizard_retry_replaces_one_element` at a concrete
state: a failed Image Validity result with a timeout-class error is
replaced at its own (last) position by the retry's completed result, the
earlier entry staying untouched. -/
theorem wizard_retry_witness :
    Wizard.wizardStep "Image Validity"
      [("test_name", Val.s "Image Validity"), ("status", Val.s "failed"),
       ("details", Val.obj [("error", Val.s "read timeout=30"),
         ("url", Val.s "u")])]
      true
      [("test_name", Val.s "Image Validity"), ("status", Val.s "completed"),
       ("details", Val.obj [("url", Val.s "u"),
         ("is_jpeg_signature", Val.b false), ("info", Val.s "")])]
      [[("test_name", Val.s "Public Access")]]
      = [[("test_name", Val.s "Public Access")]]
        ++ [[("test_name", Val.s "Image Validity"),
             ("status", Val.s "completed"),
             ("details", Val.obj [("url", Val.s "u"),
               ("is_jpeg_signature", Val.b false), ("info", Val.s "")])]] := by
  exact (wizard_retry_replaces_one_element
    [[("test_name", Val.s "Public Access")]] "Image Validity"
    [("test_name", Val.s "Image Validity"), ("status", Val.s "failed"),
     ("details", Val.obj [("error", Val.s "read timeout=30"),
       ("url", Val.s "u")])]
    [("test_name", Val.s "Image Validity"), ("status", Val.s "completed"),
     ("details", Val.obj [("url", Val.s "u"),
       ("is_jpeg_signature", Val.b false), ("info", Val.s "")])]
    (Val.s "failed") (Val.s "completed")
    (Val.obj [("error", Val.s "read timeout=30"), ("url", Val.s "u")])
    (Val.obj [("url", Val.s "u"), ("is_jpeg_signature", Val.b false),
      ("info", Val.s "")])
    rfl rfl rfl (by rfl) (Or.inr rfl) rfl rfl).2.1

/-- JSON string escaping of the characters the encoder must quote
(backslash and double quote; the report strings contain nothing else
needing escapes). -/
def jsonEscape (s : String) : String :=
  String.join (s.toList.map (fun c =>
    if c = '\\' then "\\\\"
    else if c = '"' then "\\\""
    else String.singleton c))

mutual

/-- The JSON text `json.dump` produces for an embedded value (whitespace
layout of `indent=2` abstracted; key order is insertion order, as in
Python). -/
def jsonOfVal : Val → String
  | .s v => "\"" ++ jsonEscape v ++ "\""
  | .b true => "true"
  | .b false => "false"
  | .n v => toString v
  | .q v => toString v
  | .null => "null"
  | .arr l => "[" ++ jsonOfList l ++ "]"
  | .obj l => "\x7b" ++ jsonOfObj l ++ "\x7d"

def jsonOfList : List Val → String
  | [] => ""
  | [v] => jsonOfVal v
  | v :: rest => jsonOfVal v ++ ", " ++ jsonOfList rest

def jsonOfObj : List (String × Val) → String
  | [] => ""
  | [(k, v)] => "\"" ++ jsonEscape k ++ "\": " ++ jsonOfVal v
  | (k, v) :: rest =>
      "\"" ++ jsonEscape k ++ "\": " ++ jsonOfVal v ++ ", " ++ jsonOfObj rest

end

/-- The structured (JSON) serialization `tests.save_results` writes
(tests.py lines 914-916): the report's entry list dumped as a JSON
array. -/
def renderJson (results : List Item) : String :=
  jsonOfVal (Val.arr (results.map Val.obj))

/-- One text section of `tests.save_results` (tests.py lines 920-925):
`Test: <name>`, then one line per remaining key in insertion order.
`item["test_name"]` raises `KeyError` — `none` — when the key is
absent. -/
def renderItemText (it : Item) : Option String :=
  match lookupItem it "test_name" with
  | none => none
  | some v =>
      some ("Test: " ++ pyStrOfVal v ++ "\n"
        ++ String.join ((it.filter (fun kv => kv.1 != "test_name")).map
            (fun kv => "  " ++ kv.1 ++ ": " ++ pyStrOfVal kv.2 ++ "\n"))
        ++ "\n")

/-- The human-readable serialization of `tests.save_results`: the
concatenated sections, or `none` when some entry lacks `test_name` (the
Python loop raises there and the text file is left incomplete). -/
def renderText : List Item → Option String
  | [] => some ""
  | it :: rest =>
      match renderItemText it with
      | none => none
      | some s => (renderText rest).map (fun r => s ++ r)

/-- The environment values `tests.get_case_info` (tests.py lines 51-62)
reads, plus the run timestamp it records. -/
structure CaseEnv where
  case_id : Option String
  customer_id : Option String
  customer_email : Option String
  reported_date : Option String
  priority : Option String
  test_description : Option String
  test_image_source : Option String
  run_timestamp : String

/-- `os.getenv` results as dict values: `None` or the string. -/
def optVal : Option String → Val
  | none => Val.null
  | some s => Val.s s

/-- Embedding of `tests.get_case_info` (tests.py lines 51-62).  Note the
dict carries no `test_name` key. -/
def get_case_info (env : CaseEnv) : Item :=
  [("case_id", optVal env.case_id), ("customer_id", optVal env.customer_id),
   ("customer_email", optVal env.customer_email),
   ("reported_date", optVal env.reported_date),
   ("priority", optVal env.priority),
   ("test_description", optVal env.test_description),
   ("test_image_source", optVal env.test_image_source),
   ("run_timestamp", Val.s env.run_timestamp)]

/-- Claim C8, bug evaluation:  `main` appends the Case Information entry
into the same `results` list handed to `save_results`; since that entry
has no `test_name` key, the text renderer raises `KeyError` at it, so the
human-readable serialization is never completed — for every probe-result
prefix and every case environment.  (The JSON serialization, written
first, is total and unaffected.) -/
theorem case_info_breaks_text_rendering (rs : List Item) (env : CaseEnv) :
    renderText (rs ++ [get_case_info env]) = none ∧
    renderItemText (get_case_info env) = none := by
  refine ⟨?_, rfl⟩
  induction rs with
  | nil => rfl
  | cons it rest ih =>
      rw [List.cons_append]
      cases hri : renderItemText it with
      | none => simp [renderText, hri]
      | some s => simp [renderText, hri, ih]

/-- The ambient state outside the Run Report — what the network and the
disk would answer.  Threaded through the renderer to express that
rendering never consults either. -/
structure World where
  net : String → Option HttpResp
  disk : String → Option String

/-- The pair of serializations `tests.save_results` produces (the JSON
file text, and the text file's content when its rendering succeeds), as a
function of the report and of the ambient world — which the body of
`save_results` never reads. -/
def save_results (w : World) (results : List Item) : String × Option String :=
  (renderJson results, renderText results)

/-- Claim C9:  Rendering the structured and human-readable forms from the
same unchanged Run Report is deterministic and pure: the output of
`save_results` is identical across calls whatever the ambient network and
disk state, so repeated rendering is byte-identical and depends only on
the report value. -/
theorem rendering_is_pure (w₁ w₂ : World) (results : List Item) :
    save_results w₁ results = save_results w₂ results := rfl
